import Mathlib

/-!
Shallow embedding of the Lang_Agent hybrid retrieval orchestration engine.

The definitions below are translated from the Python sources:
  app/agents/nodes.py        (router, retrieval nodes, loop guard)
  app/agents/langgraph_agent.py  (SimpleLangGraphAgent search/generate nodes)
  app/tools/internet_tool.py (similarity cache: vector store + documents)
  app/tools/graph_tool.py    (static fallback knowledge table)
  app/routes/agent.py        (HTTP endpoint validation)

External collaborators (the sentence-embedding model, the faiss flat L2
index, the Tavily client, the LLM call and the missing app/utils/formatters
module) are modelled as explicit parameters or, where the spec is the only
source, by definitions whose doc comment says `Modelled from the spec:`.
Python floats are modelled as rationals; Python exceptions as `Except` /
`Option` values threaded explicitly.
-/

/-- Lowercase a string character by character; models Python `str.lower()`
on the ASCII range used by the query keywords. -/
def lowerStr (s : String) : String := String.mk (s.data.map Char.toLower)

/-- Boolean prefix test on character lists. -/
def charsPre : List Char → List Char → Bool
  | [], _ => true
  | _ :: _, [] => false
  | a :: as, b :: bs => a == b && charsPre as bs

/-- Boolean substring test on character lists. -/
def charsSub (needle : List Char) : List Char → Bool
  | [] => needle.isEmpty
  | b :: bs => charsPre needle (b :: bs) || charsSub needle bs

/-- Python substring containment `needle in haystack`. -/
def strContains (haystack needle : String) : Bool := charsSub needle.data haystack.data

/-- Whitespace test for the characters Python `str.strip` and `str.split`
treat as separators in the queries at hand. -/
def isWs (c : Char) : Bool := c == ' ' || c == '\t' || c == '\n' || c == '\r'

/-- Models Python `str.strip()`: drop leading and trailing whitespace. -/
def trimChars (s : String) : String :=
  String.mk (((s.data.dropWhile isWs).reverse.dropWhile isWs).reverse)

/-- Helper for `splitWords`: accumulate the current word (reversed) while
scanning the character list. -/
def wordsAux : List Char → List Char → List (List Char)
  | [], acc => if acc.isEmpty then [] else [acc.reverse]
  | c :: cs, acc =>
    if isWs c then
      (if acc.isEmpty then wordsAux cs [] else acc.reverse :: wordsAux cs [])
    else wordsAux cs (c :: acc)

/-- Models Python `str.split()` with no argument: split on whitespace runs. -/
def splitWords (s : String) : List String := (wordsAux s.data []).map String.mk

/-- One retrieved document; mirrors the result dictionaries produced by
`graph_tool.py` and `internet_tool.py` (the `type` field is the spec's
`kind`). Confidence values are rationals standing for the Python floats. -/
structure Doc where
  type : String
  title : String
  content : String
  reference : String
  confidence : ℚ
  category : Option String
  published_date : Option String
  source : Option String
  relationships : List (String × String)
deriving DecidableEq

/-- The `options` dictionary of a request. A `none` field models an absent
key, so `dict.get(key, default)` becomes `Option.getD`. -/
structure Options where
  use_graph : Option Bool
  use_internet : Option Bool
  max_results : Option Nat
deriving DecidableEq

/-- Models `options.get("use_graph", True)`. -/
def Options.useGraph (o : Options) : Bool := o.use_graph.getD true

/-- Models `options.get("use_internet", True)`. -/
def Options.useInternet (o : Options) : Bool := o.use_internet.getD true

/-- The orchestration run state (`AgentState` in `app/agents/state.py`),
restricted to the fields the router, the retrieval nodes and the loop guard
read or write. -/
structure AgentState where
  query : String
  options : Options
  steps_completed : List String
  next_step : Option String
  graph_results : List Doc
  internet_results : List Doc
  semantic_results : List Doc
  all_contexts : List Doc
  reasoning : List String
  iterations : Nat
  last_error : Option String
  max_iterations_reached : Bool
deriving DecidableEq

/-- The definitional/relational keywords of `_needs_graph_search`. -/
def graph_keywords : List String :=
  ["what is", "define", "explain", "concept", "theory",
   "relationship", "how does", "compare", "difference between"]

/-- The recency keywords of `_needs_internet_search`; note the two literal
year strings hard-coded in the source. -/
def internet_keywords : List String :=
  ["latest", "recent", "news", "update", "current", "2024", "2025",
   "today", "yesterday", "this week", "this month", "trending"]

/-- Models `_needs_graph_search(query_lower)`. -/
def needsGraphSearch (q : String) : Bool := graph_keywords.any (fun k => strContains q k)

/-- Models `_needs_internet_search(query_lower)`. -/
def needsInternetSearch (q : String) : Bool := internet_keywords.any (fun k => strContains q k)

/-- Modelled from the spec: the recency check as §4.4 words it, with "a
4-digit year token for the current or next year" in place of the source's
literal year strings. Used only to compare the spec against the code. -/
def needsInternetSearchSpec (currentYear : Nat) (q : String) : Bool :=
  (["latest", "recent", "news", "update", "current",
    "today", "yesterday", "this week", "this month", "trending"].any
      (fun k => strContains q k))
  || strContains q (toString currentYear) || strContains q (toString (currentYear + 1))

/-- The `next_steps` list computed inside `route_query`. -/
def routeSteps (query : String) (options : Options) : List String :=
  let ql := lowerStr query
  "analyze_query" ::
    ((if options.useGraph && needsGraphSearch ql then ["search_graph"] else []) ++
     (if options.useInternet && needsInternetSearch ql then ["search_internet"] else []) ++
     ["generate_answer"])

/-- Models `route_query` from `app/agents/nodes.py`: only the head of the
computed schedule is stored into `next_step`; the full schedule is recorded
as one string in the reasoning trace. -/
def routeQuery (st : AgentState) : AgentState :=
  let next_steps := routeSteps st.query st.options
  { st with
    next_step := some (next_steps.headD "generate_answer"),
    steps_completed := st.steps_completed ++ ["route_query"],
    reasoning := st.reasoning ++
      ["Query routed to steps: " ++ String.intercalate ", " next_steps] }

/-- Models the `search_graph` node of `app/agents/nodes.py`. The outcome of
the `search_knowledge_graph` call (which may raise) is passed explicitly as
an `Except` value; the `except` clause becomes the `error` branch. -/
def searchGraphNode (graphRes : Except String (List Doc)) (st : AgentState) : AgentState :=
  if !st.options.useGraph then
    { st with steps_completed := st.steps_completed ++ ["search_graph"],
              next_step := some "search_internet" }
  else
    let st1 :=
      match graphRes with
      | Except.ok results =>
        { st with graph_results := results,
                  all_contexts := st.all_contexts ++ results,
                  reasoning := st.reasoning ++
                    ["Found " ++ toString results.length ++ " graph results"] }
      | Except.error e => { st with last_error := some ("Graph search error: " ++ e) }
    { st1 with steps_completed := st1.steps_completed ++ ["search_graph"],
               next_step := some (if st.options.useInternet then "search_internet"
                                  else "generate_answer") }

/-- Models the `search_internet` node of `app/agents/nodes.py`. The two
calls inside the single `try` block (internet search, then semantic search)
are passed as `Except` values; if the first raises, the second never runs,
and mutations made before the raise persist. -/
def searchInternetNode (netRes semRes : Except String (List Doc)) (st : AgentState) : AgentState :=
  if !st.options.useInternet then
    { st with steps_completed := st.steps_completed ++ ["search_internet"],
              next_step := some "generate_answer" }
  else
    let st1 :=
      match netRes with
      | Except.error e => { st with last_error := some ("Internet search error: " ++ e) }
      | Except.ok ir =>
        match semRes with
        | Except.error e =>
          { st with internet_results := ir,
                    all_contexts := st.all_contexts ++ ir,
                    last_error := some ("Internet search error: " ++ e) }
        | Except.ok sr =>
          { st with internet_results := ir,
                    semantic_results := sr,
                    all_contexts := (st.all_contexts ++ ir) ++ sr,
                    reasoning := st.reasoning ++
                      ["Found " ++ toString ir.length ++ " internet results and " ++
                       toString sr.length ++ " semantic results"] }
    { st1 with steps_completed := st1.steps_completed ++ ["search_internet"],
               next_step := some "generate_answer" }

/-- Python truthiness of `state["next_step"]`: not `None` and not empty. -/
def nextStepTruthy : Option String → Bool
  | none => false
  | some s => s != ""

/-- Models `should_continue` from `app/agents/nodes.py`; it both returns the
routing string and (in the capped branch) mutates the state, so the
embedding returns the pair. -/
def shouldContinue (st : AgentState) : String × AgentState :=
  if 5 ≤ st.iterations then ("finish", { st with max_iterations_reached := true })
  else if st.next_step == some "generate_answer" && decide (st.all_contexts.length > 0) then
    ("generate_answer", st)
  else if nextStepTruthy st.next_step && st.next_step != some "generate_answer" then
    ("continue", st)
  else ("finish", st)

/-- Modelled from the spec: the loop driver that wires the nodes into a
cycle is not under src (only the node functions and the guard are); §4.5
says the guard runs before each cycle and `iterations` is incremented once
per orchestration cycle. `fuel` bounds the recursion. -/
def runLoop (step : AgentState → AgentState) : Nat → AgentState → AgentState
  | 0, st => st
  | Nat.succ fuel, st =>
    if (shouldContinue st).1 = "continue" then
      runLoop step fuel
        (step { (shouldContinue st).2 with iterations := (shouldContinue st).2.iterations + 1 })
    else (shouldContinue st).2

/-- An embedding vector; the sentence-transformer model itself is external,
so embeddings are rationals produced by an explicit `embed` parameter. -/
abbrev Vec := List ℚ

/-- The similarity cache of `InternetSearchTool`: the lazily created faiss
index (`none` until the first successful insert or load) next to the
parallel document list. -/
structure Cache where
  index : Option (List Vec)
  documents : List Doc
deriving DecidableEq

/-- Number of vectors held by the index (`index.ntotal`); 0 when the index
has not been created yet. -/
def indexSize (c : Cache) : Nat :=
  match c.index with
  | none => 0
  | some vs => vs.length

/-- The spec invariant `index.size() == documents.length`. -/
def cacheWF (c : Cache) : Prop := indexSize c = c.documents.length

/-- Squared L2 distance, the metric of `faiss.IndexFlatL2`. -/
def l2sq (u v : Vec) : ℚ := ((u.zip v).map (fun p => (p.1 - p.2) ^ 2)).sum

/-- Semantics of `IndexFlatL2.search`: score every stored vector, sort by
ascending distance, return the first `k` (index, distance) pairs. -/
def searchIndex (vecs : List Vec) (q : Vec) (k : Nat) : List (Nat × ℚ) :=
  (List.insertionSort (fun a b => a.2 ≤ b.2)
    ((List.range vecs.length).map (fun i => (i, l2sq q (vecs.getD i []))))).take k

/-- The per-hit copy made by `semantic_search`: `confidence` becomes
`max(0.1, 1 - distance/10)` and `source` becomes `"semantic_search"`; every
other field, `type` included, is kept from the stored document. -/
def overrideDoc (d : Doc) (dist : ℚ) : Doc :=
  { d with confidence := max (1/10) (1 - dist / 10), source := some "semantic_search" }

/-- The (index, distance) hits `semantic_search` iterates over: a search of
the vector store with `k = min(max_results, len(documents))`. -/
def semanticHits (embed : String → Vec) (c : Cache) (query : String)
    (max_results : Nat) : List (Nat × ℚ) :=
  match c.index with
  | none => []
  | some vecs => searchIndex vecs (embed query) (min max_results c.documents.length)

/-- Models `InternetSearchTool.semantic_search`: empty result when the index
is missing or no documents are cached; otherwise each hit whose index is in
range yields the overridden copy of the stored document. -/
def semanticSearch (embed : String → Vec) (c : Cache) (query : String)
    (max_results : Nat) : List Doc :=
  if c.index.isNone || c.documents.length == 0 then []
  else
    (semanticHits embed c query max_results).filterMap
      (fun p =>
        if h : p.1 < c.documents.length then
          some (overrideDoc (c.documents.get ⟨p.1, h⟩) p.2)
        else none)

/-- Models `InternetSearchTool._add_to_vector_store`. The fallible external
steps are explicit: `embedRes` is the embedding call (`none` = it raised)
and `addOk` tells whether `index.add` succeeded. A failure in either is
caught by the `except` clause, so the function always returns a cache: an
embedding failure leaves the cache untouched; an add failure leaves both
halves unmodified apart from the lazy creation of an empty index, which
happens before the add. The periodic `_save_vector_store` call does not
change the in-memory state and is omitted. -/
def addToVectorStore (embedRes : Option Vec) (addOk : Bool) (c : Cache) (doc : Doc) : Cache :=
  match embedRes with
  | none => c
  | some v =>
    let vecs := match c.index with | none => [] | some vs => vs
    if addOk then { index := some (vecs ++ [v]), documents := c.documents ++ [doc] }
    else { c with index := some vecs }

/-- The `ai` entry of the static fallback knowledge table in
`app/tools/graph_tool.py`. -/
def kbAI : Doc :=
  { type := "graph", title := "Artificial Intelligence",
    content := "Field of computer science focused on creating intelligent machines that can learn, reason, and solve problems. Includes subfields like machine learning, natural language processing, and computer vision.",
    reference := "graph:fallback:ai001", confidence := 85/100,
    category := some "technology", published_date := none, source := none,
    relationships := [] }

/-- The `machine learning` entry of the fallback table. -/
def kbML : Doc :=
  { type := "graph", title := "Machine Learning",
    content := "Subset of AI that uses statistical techniques to enable computers to learn and improve from experience without explicit programming. Common approaches include supervised learning, unsupervised learning, and reinforcement learning.",
    reference := "graph:fallback:ml001", confidence := 82/100,
    category := some "technology", published_date := none, source := none,
    relationships := [] }

/-- The `deep learning` entry of the fallback table. -/
def kbDL : Doc :=
  { type := "graph", title := "Deep Learning",
    content := "Type of machine learning using neural networks with multiple layers to model complex patterns in large amounts of data. Particularly effective for image recognition, speech recognition, and natural language processing.",
    reference := "graph:fallback:dl001", confidence := 80/100,
    category := some "technology", published_date := none, source := none,
    relationships := [] }

/-- The `natural language processing` entry of the fallback table. -/
def kbNLP : Doc :=
  { type := "graph", title := "Natural Language Processing",
    content := "Branch of AI that helps computers understand, interpret, and manipulate human language. Applications include chatbots, translation, and sentiment analysis.",
    reference := "graph:fallback:nlp001", confidence := 78/100,
    category := some "technology", published_date := none, source := none,
    relationships := [] }

/-- The `computer vision` entry of the fallback table. -/
def kbCV : Doc :=
  { type := "graph", title := "Computer Vision",
    content := "Field of AI that enables computers to interpret and understand the visual world from digital images or videos. Used in facial recognition, autonomous vehicles, and medical imaging.",
    reference := "graph:fallback:cv001", confidence := 77/100,
    category := some "technology", published_date := none, source := none,
    relationships := [] }

/-- The `neural networks` entry of the fallback table. -/
def kbNN : Doc :=
  { type := "graph", title := "Neural Networks",
    content := "Computing systems inspired by biological neural networks. Consist of interconnected nodes (neurons) that process information and learn patterns.",
    reference := "graph:fallback:nn001", confidence := 79/100,
    category := some "technology", published_date := none, source := none,
    relationships := [] }

/-- The `fallback_knowledge_base` dictionary in iteration (insertion)
order. -/
def fallbackKB : List (String × Doc) :=
  [("ai", kbAI), ("machine learning", kbML), ("deep learning", kbDL),
   ("natural language processing", kbNLP), ("computer vision", kbCV),
   ("neural networks", kbNN)]

/-- First selection pass of `_get_fallback_graph_data`: entries whose key is
contained in the lowercased query. -/
def exactKeyMatches (ql : String) : List Doc :=
  (fallbackKB.filter (fun kv => strContains ql kv.1)).map (fun kv => kv.2)

/-- Second selection pass: entries one of whose key words occurs in the
lowercased query. -/
def tokenMatches (ql : String) : List Doc :=
  (fallbackKB.filter (fun kv => (splitWords kv.1).any (fun w => strContains ql w))).map
    (fun kv => kv.2)

/-- The generic AI-term trigger of the third pass. -/
def aiTerms : List String := ["ai", "artificial", "intelligence", "machine", "learning"]

/-- Models `_get_fallback_graph_data` from `app/tools/graph_tool.py`. -/
def getFallbackGraphData (query : String) (max_results : Nat) : List Doc :=
  let ql := lowerStr query
  let r1 := exactKeyMatches ql
  let r2 := if r1.isEmpty then tokenMatches ql else r1
  let r3 := if r2.isEmpty && aiTerms.any (fun t => strContains ql t) then [kbAI, kbML, kbDL]
            else r2
  if r3.isEmpty then (fallbackKB.map (fun kv => kv.2)).take max_results
  else r3.take max_results

/-- Selection precedence as the specification words it: exact key
containment first, then token overlap, then the generic AI bundle, then the
whole table; the result is truncated to `max_results` by the caller. Stated
separately so the source function can be proved a refinement of it. -/
def fallbackPrecedenceSpec (query : String) : List Doc :=
  let ql := lowerStr query
  if !(exactKeyMatches ql).isEmpty then exactKeyMatches ql
  else if !(tokenMatches ql).isEmpty then tokenMatches ql
  else if aiTerms.any (fun t => strContains ql t) then [kbAI, kbML, kbDL]
  else fallbackKB.map (fun kv => kv.2)

/-- One entry of the formatted source list; the formatting function itself
lives in the missing `app/utils/formatters` module and is passed as a
parameter where needed. -/
structure SourceEntry where
  title : String
  reference : String
  type : String
  confidence : ℚ
deriving DecidableEq

/-- The `structured_output` dictionary produced by the generate node. -/
structure StructuredOutput where
  key_points : List String
  summary : String
deriving DecidableEq

/-- The state dictionary flowing through `SimpleLangGraphAgent`'s two-node
workflow (`_search_node` then `_generate_node`). -/
structure SimpleState where
  query : String
  options : Options
  all_results : List Doc
  total_sources : Nat
  answer : String
  sources : List SourceEntry
  structured_output : StructuredOutput
deriving DecidableEq

/-- Models `options.get("max_results", 3)` as used by both retriever calls
inside `SimpleLangGraphAgent._search_node`. -/
def searchNodeLimit (o : Options) : Nat := o.max_results.getD 3

/-- Models `SimpleLangGraphAgent._search_node`. The two retriever calls are
explicit function parameters; each is wrapped in its own `try`, so a raise
contributes no documents and the other call still runs. -/
def searchNode (graphSearch netSearch : String → Nat → Except String (List Doc))
    (st : SimpleState) : SimpleState :=
  let r1 := if st.options.useGraph then
      match graphSearch st.query (searchNodeLimit st.options) with
      | Except.ok l => l
      | Except.error _ => []
    else []
  let r2 := if st.options.useInternet then
      match netSearch st.query (searchNodeLimit st.options) with
      | Except.ok l => l
      | Except.error _ => []
    else []
  { st with all_results := r1 ++ r2, total_sources := (r1 ++ r2).length }

/-- The parsed LLM reply `{answer, key_points, summary}`. -/
structure ParsedResponse where
  answer : String
  key_points : List String
  summary : String
deriving DecidableEq

/-- Models `SimpleLangGraphAgent._generate_fallback_answer`. -/
def generateFallbackAnswer (st : SimpleState) (results : List Doc) : SimpleState :=
  let graph_count := (results.filter (fun r => r.type == "graph")).length
  let internet_count := (results.filter (fun r => r.type == "internet")).length
  { st with
    answer := "I found information about your query from " ++ toString results.length ++
      " sources (" ++ toString graph_count ++ " from knowledge graph, " ++
      toString internet_count ++ " from web search). Configure LLM for detailed AI responses.",
    structured_output :=
      { key_points := ["Graph sources: " ++ toString graph_count,
                       "Internet sources: " ++ toString internet_count,
                       "Fallback mode active", "LLM not configured"],
        summary := "Found " ++ toString results.length ++ " information sources" } }

/-- Models `SimpleLangGraphAgent._generate_node`. `fs` stands for the
external `format_sources` helper; `llm` is `none` when no LLM is configured,
`some (Except.error _)` when the invoke-and-parse pipeline raised, and
`some (Except.ok p)` for a parsed reply. With no accumulated results both
branches are short-circuited by the fixed insufficient-information answer. -/
def generateNode (fs : List Doc → List SourceEntry)
    (llm : Option (Except String ParsedResponse)) (st : SimpleState) : SimpleState :=
  if st.all_results.isEmpty then
    { st with
      answer := "I couldn\x27t find enough relevant information to answer your question.",
      sources := [],
      structured_output :=
        { key_points := ["No information found"],
          summary := "Unable to generate answer due to insufficient information" } }
  else
    let sources := fs st.all_results
    let st1 :=
      match llm with
      | some (Except.ok p) =>
        { st with answer := p.answer,
                  structured_output := { key_points := p.key_points, summary := p.summary } }
      | some (Except.error _) => generateFallbackAnswer st st.all_results
      | none => generateFallbackAnswer st st.all_results
    { st1 with sources := sources }

/-- Models `options or {}` at the top of `process_query`: an absent options
argument becomes the empty dictionary, not the route-level default. -/
def processOptions (o : Option Options) : Options :=
  o.getD { use_graph := none, use_internet := none, max_results := none }

/-- The default `options` value of the `QueryRequest` pydantic model in
`app/routes/agent.py`, applied only when the request omits the whole
`options` object. -/
def defaultRequestOptions : Options :=
  { use_graph := some true, use_internet := some true, max_results := some 5 }

/-- An incoming request body (query plus options). -/
structure QueryRequest where
  query : String
  options : Options
deriving DecidableEq

/-- Outcome of the endpoint before the agent runs: either an error response
or the call into `process_query` with the stripped query; the retrievers can
only run inside the `processCall` constructor. -/
inductive EndpointResult where
  | errorResp (status : Nat) (code : String) (message : String)
  | processCall (query : String) (options : Options)
deriving DecidableEq

/-- Models the validation prefix of `agent_query_endpoint` in
`app/routes/agent.py`: an empty or whitespace-only query raises the 400
`INVALID_REQUEST` error before `process_query` is reached. -/
def agentQueryEndpoint (req : QueryRequest) : EndpointResult :=
  if req.query == "" || (trimChars req.query).length == 0 then
    EndpointResult.errorResp 400 "INVALID_REQUEST" "Query cannot be empty"
  else
    EndpointResult.processCall (trimChars req.query) req.options

/-- Placeholder document used as the `getD` default when a `filterMap` over
in-range indices is restated as a `map`. -/
def dummyDoc : Doc :=
  { type := "", title := "", content := "", reference := "", confidence := 0,
    category := none, published_date := none, source := none, relationships := [] }

/-- A concrete run state whose iteration counter has reached the cap. -/
def sampleStateCapped : AgentState :=
  { query := "what is ai?", options := defaultRequestOptions, steps_completed := [],
    next_step := some "search_graph", graph_results := [], internet_results := [],
    semantic_results := [], all_contexts := [], reasoning := [], iterations := 5,
    last_error := none, max_iterations_reached := false }

/-- A concrete freshly initialized run state. -/
def sampleStateFresh : AgentState := { sampleStateCapped with iterations := 0 }

/-- A concrete internet document as produced by the web retriever. -/
def sampleInternetDoc : Doc :=
  { type := "internet", title := "Research about ai", content := "mock content",
    reference := "https://example.com/mock-data", confidence := 3/4, category := none,
    published_date := some "2024-01-01", source := some "tavily", relationships := [] }

/-- A concrete one-document cache whose stored embedding is the zero vector. -/
def sampleCache : Cache := { index := some [[0]], documents := [sampleInternetDoc] }

/-- A concrete embedding function for evaluating the cache operations. -/
def sampleEmbed : String → Vec := fun _ => [0]

/-- A concrete simple-agent state with both retrieval sources disabled. -/
def sampleSimpleState : SimpleState :=
  { query := "anything",
    options := { use_graph := some false, use_internet := some false, max_results := none },
    all_results := [], total_sources := 0, answer := "", sources := [],
    structured_output := { key_points := [], summary := "" } }

/-- A concrete simple-agent state with both retrieval sources enabled. -/
def sampleSimpleStateOn : SimpleState :=
  { sampleSimpleState with options := defaultRequestOptions }

theorem shouldContinue_snd_iterations (st : AgentState) :
    (shouldContinue st).2.iterations = st.iterations := by
  unfold shouldContinue
  split
  · rfl
  · split
    · rfl
    · split <;> rfl

theorem filterMap_eq_map_of_forall {α β : Type} (f : α → Option β) (g : α → β)
    (l : List α) (h : ∀ a ∈ l, f a = some (g a)) : l.filterMap f = l.map g := by
  induction l with
  | nil => rfl
  | cons x xs ih =>
    rw [List.filterMap_cons, h x (by simp), List.map_cons,
        ih (fun a ha => h a (by simp [ha]))]

/-- C10: for every query and options, `route_query` stores `"analyze_query"`
into `next_step` — only the head of the routed schedule, which is always
`"analyze_query"` — while the full schedule is recorded only as one string
in the reasoning trace and `route_query` is appended to the completed
steps. -/
theorem C10_route_query_next_step (st : AgentState) :
    (routeQuery st).next_step = some "analyze_query" ∧
    (routeQuery st).steps_completed = st.steps_completed ++ ["route_query"] ∧
    (routeQuery st).reasoning = st.reasoning ++
      ["Query routed to steps: " ++ String.intercalate ", " (routeSteps st.query st.options)] ∧
    (routeSteps st.query st.options).headD "generate_answer" = "analyze_query" :=
  ⟨rfl, rfl, rfl, rfl⟩

/-- C9: a request whose query strips to the empty string is answered by the
400 `INVALID_REQUEST` error constructor, so `process_query` — and with it
every retriever — is never reached. -/
theorem C9_empty_query_invalid_request (req : QueryRequest)
    (h : trimChars req.query = "") :
    agentQueryEndpoint req =
      EndpointResult.errorResp 400 "INVALID_REQUEST" "Query cannot be empty" := by
  unfold agentQueryEndpoint
  rw [h]
  simp

theorem C9_empty_query_invalid_request_witness :
    trimChars "   " = "" ∧
    agentQueryEndpoint
        { query := "   ",
          options := { use_graph := none, use_internet := none, max_results := none } } =
      EndpointResult.errorResp 400 "INVALID_REQUEST" "Query cannot be empty" :=
  ⟨by decide, C9_empty_query_invalid_request _ (by decide)⟩

/-- C6: the fallback selection of the Graph Retriever refines the spec's
precedence (exact key containment, then token overlap, then the generic AI
bundle, then the whole table, truncated to `max_results`), and the query
"What is AI?" returns the `ai` entry first. -/
theorem C6_fallback_precedence :
    (∀ query max_results, getFallbackGraphData query max_results =
        (fallbackPrecedenceSpec query).take max_results) ∧
    (getFallbackGraphData "What is AI?" 5).head? = some kbAI := by
  constructor
  · intro q m
    unfold getFallbackGraphData fallbackPrecedenceSpec
    by_cases h1 : (exactKeyMatches (lowerStr q)).isEmpty
    · by_cases h2 : (tokenMatches (lowerStr q)).isEmpty
      · by_cases h3 : (aiTerms.any (fun t => strContains (lowerStr q) t)) = true
        · simp [h1, h2, h3]
        · simp [h1, h2, h3, List.isEmpty_iff] at h1 h2 ⊢
      · simp [h1, h2, List.isEmpty_iff] at h2 ⊢
    · simp [h1, List.isEmpty_iff] at h1 ⊢
  · rfl

/-- C7 counterexample: when `process_query` receives no options (Python
`options or {}` yields the empty dictionary, the same dictionary a caller
supplies when omitting only `max_results`), the search node invokes the
retrievers with limit 3, not 5. -/
theorem C7_counterexample :
    searchNodeLimit (processOptions none) = 3 ∧ searchNodeLimit (processOptions none) ≠ 5 :=
  ⟨rfl, by decide⟩

/-- C7 (amended): the route-level pydantic default — applied only when the
whole options object is omitted from the request — is
`{use_graph: true, use_internet: true, max_results: 5}`, and with it the
search node's retriever limit is 5; but an options dictionary that merely
lacks the `max_results` key yields limit 3, while the missing boolean flags
still default to true. -/
theorem C7_default_options (o : Options) (h : o.max_results = none) :
    searchNodeLimit defaultRequestOptions = 5 ∧
    defaultRequestOptions.useGraph = true ∧
    defaultRequestOptions.useInternet = true ∧
    searchNodeLimit o = 3 ∧
    (o.use_graph = none → o.useGraph = true) ∧
    (o.use_internet = none → o.useInternet = true) := by
  refine ⟨rfl, rfl, rfl, ?_, ?_, ?_⟩
  · rw [searchNodeLimit, h]; rfl
  · intro hg; rw [Options.useGraph, hg]; rfl
  · intro hi; rw [Options.useInternet, hi]; rfl

theorem C7_default_options_witness :
    (({ use_graph := some true, use_internet := some true, max_results := none } : Options).max_results
        = none) ∧
    (searchNodeLimit defaultRequestOptions = 5 ∧
     defaultRequestOptions.useGraph = true ∧
     defaultRequestOptions.useInternet = true ∧
     searchNodeLimit { use_graph := some true, use_internet := some true, max_results := none } = 3 ∧
     (({ use_graph := some true, use_internet := some true, max_results := none } : Options).use_graph
         = none →
       ({ use_graph := some true, use_internet := some true, max_results := none } : Options).useGraph
         = true) ∧
     (({ use_graph := some true, use_internet := some true, max_results := none } : Options).use_internet
         = none →
       ({ use_graph := some true, use_internet := some true, max_results := none } : Options).useInternet
         = true)) :=
  ⟨rfl, C7_default_options _ rfl⟩

/-- C5: with both `use_graph` and `use_internet` false the search node
accumulates no documents, and the generate node short-circuits both the LLM
and the fallback branch — for every LLM configuration and every formatter —
returning the fixed insufficient-information answer with an empty source
list. -/
theorem C5_disabled_sources_insufficient_info
    (g n : String → Nat → Except String (List Doc))
    (fs : List Doc → List SourceEntry) (llm : Option (Except String ParsedResponse))
    (st : SimpleState)
    (hg : st.options.use_graph = some false) (hi : st.options.use_internet = some false) :
    (searchNode g n st).all_results = [] ∧
    (generateNode fs llm (searchNode g n st)).answer =
      "I couldn\x27t find enough relevant information to answer your question." ∧
    (generateNode fs llm (searchNode g n st)).sources = [] ∧
    (generateNode fs llm (searchNode g n st)).structured_output =
      { key_points := ["No information found"],
        summary := "Unable to generate answer due to insufficient information" } := by
  have hG : st.options.useGraph = false := by rw [Options.useGraph, hg]; rfl
  have hI : st.options.useInternet = false := by rw [Options.useInternet, hi]; rfl
  have hsearch : (searchNode g n st).all_results = [] := by
    unfold searchNode; simp [hG, hI]
  refine ⟨hsearch, ?_, ?_, ?_⟩ <;>
    · unfold generateNode
      simp [hsearch]

theorem C5_disabled_sources_insufficient_info_witness :
    (searchNode (fun _ _ => Except.ok []) (fun _ _ => Except.ok [])
        sampleSimpleState).all_results = [] ∧
    (generateNode (fun _ => []) none
        (searchNode (fun _ _ => Except.ok []) (fun _ _ => Except.ok [])
          sampleSimpleState)).answer =
      "I couldn\x27t find enough relevant information to answer your question." ∧
    (generateNode (fun _ => []) none
        (searchNode (fun _ _ => Except.ok []) (fun _ _ => Except.ok [])
          sampleSimpleState)).sources = [] ∧
    (generateNode (fun _ => []) none
        (searchNode (fun _ _ => Except.ok []) (fun _ _ => Except.ok [])
          sampleSimpleState)).structured_output =
      { key_points := ["No information found"],
        summary := "Unable to generate answer due to insufficient information" } :=
  C5_disabled_sources_insufficient_info _ _ _ none sampleSimpleState rfl rfl

/-- C3: every insert into the similarity cache preserves the invariant
`index.size() == documents.length` — the embedding is computed before either
mutation, and a vector is added exactly when its document is appended — and
the insert function is total (errors in the embedding or the index are
swallowed, the caller always gets a cache back). -/
theorem C3_insert_preserves_invariant (e : Option Vec) (a : Bool) (c : Cache) (d : Doc)
    (h : cacheWF c) :
    cacheWF (addToVectorStore e a c d) ∧
    ((addToVectorStore e a c d).documents = c.documents ++ [d] ∧
       indexSize (addToVectorStore e a c d) = indexSize c + 1 ∨
     (addToVectorStore e a c d).documents = c.documents ∧
       indexSize (addToVectorStore e a c d) = indexSize c) := by
  unfold cacheWF at h ⊢
  cases e with
  | none => exact ⟨h, Or.inr ⟨rfl, rfl⟩⟩
  | some v =>
    cases hidx : c.index with
    | none =>
      have hd : c.documents.length = 0 := by simpa [indexSize, hidx] using h.symm
      cases a with
      | true => refine ⟨?_, Or.inl ⟨?_, ?_⟩⟩ <;> simp [addToVectorStore, hidx, indexSize, hd]
      | false => refine ⟨?_, Or.inr ⟨?_, ?_⟩⟩ <;> simp [addToVectorStore, hidx, indexSize, hd]
    | some vs =>
      have hv : vs.length = c.documents.length := by simpa [indexSize, hidx] using h
      cases a with
      | true => refine ⟨?_, Or.inl ⟨?_, ?_⟩⟩ <;> simp [addToVectorStore, hidx, indexSize, hv]
      | false => refine ⟨?_, Or.inr ⟨?_, ?_⟩⟩ <;> simp [addToVectorStore, hidx, indexSize, hv]

theorem C3_insert_preserves_invariant_witness :
    cacheWF { index := some [], documents := [] } ∧
    (cacheWF (addToVectorStore (some [1]) true { index := some [], documents := [] }
        sampleInternetDoc) ∧
     ((addToVectorStore (some [1]) true { index := some [], documents := [] }
          sampleInternetDoc).documents = ([] : List Doc) ++ [sampleInternetDoc] ∧
        indexSize (addToVectorStore (some [1]) true { index := some [], documents := [] }
          sampleInternetDoc) = indexSize { index := some [], documents := [] } + 1 ∨
      (addToVectorStore (some [1]) true { index := some [], documents := [] }
          sampleInternetDoc).documents = ([] : List Doc) ∧
        indexSize (addToVectorStore (some [1]) true { index := some [], documents := [] }
          sampleInternetDoc) = indexSize { index := some [], documents := [] })) :=
  ⟨rfl, C3_insert_preserves_invariant (some [1]) true _ sampleInternetDoc rfl⟩

/-- C8 counterexample: the source hard-codes the literal year strings
"2024" and "2025"; with today's current year 2026, the query
"events of 2026" satisfies the spec's recency condition (a 4-digit token
for the current year) and `use_internet` holds, yet the router does not
schedule `search_internet` — so the claimed "if and only if" fails at this
input. -/
theorem C8_year_counterexample :
    ("search_internet" ∉ routeSteps "events of 2026" defaultRequestOptions) ∧
    defaultRequestOptions.useInternet = true ∧
    needsInternetSearchSpec 2026 (lowerStr "events of 2026") = true := by
  refine ⟨by decide, rfl, by decide⟩

/-- C8 (amended): the router schedules internet search if and only if the
`use_internet` option holds (absent key defaults to true) and the lowercased
query contains one of the recency keywords or one of the literal substrings
"2024" / "2025" (fixed years, substring containment rather than year
tokenization); the check is independent of the graph-search check, which is
characterized by its own keyword condition in the same way. -/
theorem C8_internet_scheduling (query : String) (o : Options) :
    ("search_internet" ∈ routeSteps query o ↔
       o.useInternet = true ∧ needsInternetSearch (lowerStr query) = true) ∧
    ("search_graph" ∈ routeSteps query o ↔
       o.useGraph = true ∧ needsGraphSearch (lowerStr query) = true) := by
  unfold routeSteps
  cases hg : o.useGraph <;> cases hgs : needsGraphSearch (lowerStr query) <;>
    cases hi : o.useInternet <;> cases his : needsInternetSearch (lowerStr query) <;>
      simp_all

/-- C1: the loop guard of `should_continue` forces the terminal decision as
soon as `iterations >= 5`, whatever the pending `next_step`; consequently,
for the spec's loop driver — guard before each cycle, one increment per
cycle, node steps leaving the counter alone — `iterations <= 5` holds at
termination from any start respecting the bound. -/
theorem C1_iteration_bound :
    (∀ st : AgentState, 5 ≤ st.iterations → (shouldContinue st).1 = "finish") ∧
    (∀ step : AgentState → AgentState, (∀ s, (step s).iterations = s.iterations) →
      ∀ fuel st, st.iterations ≤ 5 → (runLoop step fuel st).iterations ≤ 5) := by
  have hguard : ∀ st : AgentState, 5 ≤ st.iterations → (shouldContinue st).1 = "finish" := by
    intro st h
    unfold shouldContinue
    rw [if_pos h]
  refine ⟨hguard, ?_⟩
  intro step hstep fuel
  induction fuel with
  | zero => intro st h; exact h
  | succ n ih =>
    intro st h
    unfold runLoop
    by_cases hc : (shouldContinue st).1 = "continue"
    · rw [if_pos hc]
      apply ih
      have hx : (step { (shouldContinue st).2 with
          iterations := (shouldContinue st).2.iterations + 1 }).iterations
          = st.iterations + 1 := by
        rw [hstep]; simp [shouldContinue_snd_iterations]
      rw [hx]
      by_cases h5 : 5 ≤ st.iterations
      · rw [hguard st h5] at hc
        exact absurd hc (by decide)
      · omega
    · rw [if_neg hc, shouldContinue_snd_iterations]
      exact h

theorem C1_iteration_bound_witness :
    (5 ≤ sampleStateCapped.iterations ∧ (shouldContinue sampleStateCapped).1 = "finish") ∧
    (sampleStateFresh.iterations ≤ 5 ∧ (runLoop id 3 sampleStateFresh).iterations ≤ 5) :=
  ⟨⟨by decide, C1_iteration_bound.1 sampleStateCapped (by decide)⟩,
   ⟨by decide, C1_iteration_bound.2 id (fun _ => rfl) 3 sampleStateFresh (by decide)⟩⟩

/-- C2: a retriever exception inside `search_graph` or `search_internet` is
caught at the node boundary: `last_error` records the message, the
accumulated contexts gain zero documents from the failing source, the step
is still marked completed, and `next_step` still advances — after a graph
failure the internet step remains scheduled, so the other retriever still
executes — likewise in `SimpleLangGraphAgent._search_node`, where a graph
exception leaves exactly the internet results accumulated; the run is never
aborted. -/
theorem C2_retriever_error_isolation (st : AgentState) (e : String)
    (semRes : Except String (List Doc)) (sst : SimpleState) (nl : List Doc)
    (hg : st.options.useGraph = true) (hi : st.options.useInternet = true)
    (hg2 : sst.options.useGraph = true) (hi2 : sst.options.useInternet = true) :
    ((searchGraphNode (Except.error e) st).last_error =
        some ("Graph search error: " ++ e) ∧
     (searchGraphNode (Except.error e) st).all_contexts = st.all_contexts ∧
     (searchGraphNode (Except.error e) st).graph_results = st.graph_results ∧
     (searchGraphNode (Except.error e) st).steps_completed =
        st.steps_completed ++ ["search_graph"] ∧
     (searchGraphNode (Except.error e) st).next_step = some "search_internet") ∧
    ((searchInternetNode (Except.error e) semRes st).last_error =
        some ("Internet search error: " ++ e) ∧
     (searchInternetNode (Except.error e) semRes st).all_contexts = st.all_contexts ∧
     (searchInternetNode (Except.error e) semRes st).internet_results =
        st.internet_results ∧
     (searchInternetNode (Except.error e) semRes st).steps_completed =
        st.steps_completed ++ ["search_internet"] ∧
     (searchInternetNode (Except.error e) semRes st).next_step =
        some "generate_answer") ∧
    (searchNode (fun _ _ => Except.error e) (fun _ _ => Except.ok nl) sst).all_results =
      nl := by
  refine ⟨?_, ?_, ?_⟩
  · unfold searchGraphNode
    simp [hg, hi]
  · unfold searchInternetNode
    simp [hi]
  · unfold searchNode
    simp [hg2, hi2]

theorem C2_retriever_error_isolation_witness :
    ((searchGraphNode (Except.error "boom") sampleStateFresh).last_error =
        some ("Graph search error: " ++ "boom") ∧
     (searchGraphNode (Except.error "boom") sampleStateFresh).all_contexts =
        sampleStateFresh.all_contexts ∧
     (searchGraphNode (Except.error "boom") sampleStateFresh).graph_results =
        sampleStateFresh.graph_results ∧
     (searchGraphNode (Except.error "boom") sampleStateFresh).steps_completed =
        sampleStateFresh.steps_completed ++ ["search_graph"] ∧
     (searchGraphNode (Except.error "boom") sampleStateFresh).next_step =
        some "search_internet") ∧
    ((searchInternetNode (Except.error "boom") (Except.ok []) sampleStateFresh).last_error =
        some ("Internet search error: " ++ "boom") ∧
     (searchInternetNode (Except.error "boom") (Except.ok []) sampleStateFresh).all_contexts =
        sampleStateFresh.all_contexts ∧
     (searchInternetNode (Except.error "boom") (Except.ok []) sampleStateFresh).internet_results =
        sampleStateFresh.internet_results ∧
     (searchInternetNode (Except.error "boom") (Except.ok []) sampleStateFresh).steps_completed =
        sampleStateFresh.steps_completed ++ ["search_internet"] ∧
     (searchInternetNode (Except.error "boom") (Except.ok []) sampleStateFresh).next_step =
        some "generate_answer") ∧
    (searchNode (fun _ _ => Except.error "boom") (fun _ _ => Except.ok [sampleInternetDoc])
        sampleSimpleStateOn).all_results = [sampleInternetDoc] :=
  C2_retriever_error_isolation sampleStateFresh "boom" (Except.ok [])
    sampleSimpleStateOn [sampleInternetDoc] rfl rfl rfl rfl

theorem l2sq_nonneg (u v : Vec) : 0 ≤ l2sq u v := by
  unfold l2sq
  apply List.sum_nonneg
  intro x hx
  rw [List.mem_map] at hx
  obtain ⟨p, _, rfl⟩ := hx
  exact sq_nonneg _

theorem searchIndex_sorted (vecs : List Vec) (q : Vec) (k : Nat) :
    List.Pairwise (fun a b : Nat × ℚ => a.2 ≤ b.2) (searchIndex vecs q k) := by
  unfold searchIndex
  haveI : IsTotal (Nat × ℚ) (fun a b => a.2 ≤ b.2) := ⟨fun a b => le_total a.2 b.2⟩
  haveI : IsTrans (Nat × ℚ) (fun a b => a.2 ≤ b.2) := ⟨fun _ _ _ h1 h2 => le_trans h1 h2⟩
  exact List.Pairwise.take (List.sorted_insertionSort _ _)

theorem searchIndex_mem (vecs : List Vec) (q : Vec) (k : Nat) (p : Nat × ℚ)
    (hp : p ∈ searchIndex vecs q k) :
    p.1 < vecs.length ∧ p.2 = l2sq q (vecs.getD p.1 []) := by
  unfold searchIndex at hp
  have hp2 := List.take_subset _ _ hp
  have hp3 := (List.perm_insertionSort (fun a b : Nat × ℚ => a.2 ≤ b.2) _).mem_iff.mp hp2
  rw [List.mem_map] at hp3
  obtain ⟨i, hi, rfl⟩ := hp3
  rw [List.mem_range] at hi
  exact ⟨hi, rfl⟩

theorem searchIndex_length (vecs : List Vec) (q : Vec) (k : Nat) :
    (searchIndex vecs q k).length = min k vecs.length := by
  unfold searchIndex
  rw [List.length_take, (List.perm_insertionSort _ _).length_eq,
      List.length_map, List.length_range]

theorem semanticHits_eq (embed : String → Vec) (c : Cache) (q : String) (k : Nat)
    (vecs : List Vec) (hidx : c.index = some vecs) :
    semanticHits embed c q k = searchIndex vecs (embed q) (min k c.documents.length) := by
  unfold semanticHits
  rw [hidx]

/-- C4 (amended): on a well-formed cache, `semantic_search` returns at most
`min(k, N)` documents; the underlying hits are in ascending vector-distance
order and the result is exactly their in-order image; every returned
document is a copy of a stored document with `source = "semantic_search"`
and `confidence = max(0.1, 1 - distance/10)` for a nonnegative distance
(hence confidence in `[0.1, 1]`), while the stored `type` (the spec's kind)
is left unchanged rather than overridden to `semantic`; an empty or
index-less cache yields the empty sequence, and the operation is total. -/
theorem C4_semantic_search (embed : String → Vec) (c : Cache) (q : String) (k : Nat)
    (vecs : List Vec) (hidx : c.index = some vecs)
    (hwf : vecs.length = c.documents.length) :
    (semanticSearch embed c q k =
       (semanticHits embed c q k).map
         (fun p => overrideDoc (c.documents.getD p.1 dummyDoc) p.2)) ∧
    (semanticSearch embed c q k).length ≤ min k c.documents.length ∧
    List.Pairwise (fun a b : Nat × ℚ => a.2 ≤ b.2) (semanticHits embed c q k) ∧
    (∀ d ∈ semanticSearch embed c q k,
       d.source = some "semantic_search" ∧
       1/10 ≤ d.confidence ∧ d.confidence ≤ 1 ∧
       ∃ d0 ∈ c.documents, d.type = d0.type ∧
         ∃ dist : ℚ, 0 ≤ dist ∧ d = overrideDoc d0 dist) ∧
    (c.documents = [] → semanticSearch embed c q k = []) ∧
    (∀ (embed2 : String → Vec) (docs : List Doc) (q2 : String) (k2 : Nat),
       semanticSearch embed2 { index := none, documents := docs } q2 k2 = []) := by
  have hmem : ∀ p ∈ semanticHits embed c q k, p.1 < c.documents.length ∧ 0 ≤ p.2 := by
    intro p hp
    rw [semanticHits_eq embed c q k vecs hidx] at hp
    obtain ⟨h1, h2⟩ := searchIndex_mem _ _ _ p hp
    exact ⟨hwf ▸ h1, h2 ▸ l2sq_nonneg _ _⟩
  have hmap : semanticSearch embed c q k =
      (semanticHits embed c q k).map
        (fun p => overrideDoc (c.documents.getD p.1 dummyDoc) p.2) := by
    by_cases hd : c.documents.length = 0
    · have hits0 : semanticHits embed c q k = [] := by
        rw [semanticHits_eq embed c q k vecs hidx]
        unfold searchIndex
        simp [hd]
      unfold semanticSearch
      simp [hd, hits0]
    · unfold semanticSearch
      rw [if_neg (by simp [hidx, hd])]
      apply filterMap_eq_map_of_forall
      intro p hp
      obtain ⟨hlt, _⟩ := hmem p hp
      rw [dif_pos hlt]
      congr 1
      rw [List.getD_eq_getElem _ _ hlt]
      rfl
  refine ⟨hmap, ?_, ?_, ?_, ?_, ?_⟩
  · rw [hmap, List.length_map, semanticHits_eq embed c q k vecs hidx,
        searchIndex_length, hwf]
    omega
  · rw [semanticHits_eq embed c q k vecs hidx]
    exact searchIndex_sorted _ _ _
  · intro d hd
    rw [hmap, List.mem_map] at hd
    obtain ⟨p, hp, rfl⟩ := hd
    obtain ⟨hlt, hge⟩ := hmem p hp
    have hdiv : (0:ℚ) ≤ p.2 / 10 := div_nonneg hge (by norm_num)
    refine ⟨rfl, le_max_left _ _, max_le (by norm_num) (sub_le_self _ hdiv), ?_⟩
    refine ⟨c.documents.getD p.1 dummyDoc, ?_, rfl, p.2, hge, rfl⟩
    rw [List.getD_eq_getElem _ _ hlt]
    exact List.getElem_mem _
  · intro h0
    unfold semanticSearch
    simp [h0]
  · intro embed2 docs q2 k2
    unfold semanticSearch
    simp

theorem C4_semantic_search_witness :
    (sampleCache.index = some [[(0:ℚ)]] ∧ [[(0:ℚ)]].length = sampleCache.documents.length) ∧
    (semanticSearch sampleEmbed sampleCache "q" 3).length ≤ min 3 sampleCache.documents.length :=
  ⟨⟨rfl, rfl⟩, (C4_semantic_search sampleEmbed sampleCache "q" 3 [[0]] rfl rfl).2.1⟩

/-- C4 counterexample: on a cache holding one stored internet document, the
returned copy keeps `type = "internet"` — the stored kind is not overridden
to `semantic` (only the `source` field is set to `"semantic_search"`), so
the claim's "kind = semantic" clause fails at this concrete input. -/
theorem C4_kind_counterexample :
    (semanticSearch sampleEmbed sampleCache "q" 3).map Doc.type = ["internet"] ∧
    (semanticSearch sampleEmbed sampleCache "q" 3).map Doc.source =
      [some "semantic_search"] ∧
    "internet" ≠ "semantic" :=
  ⟨rfl, rfl, by decide⟩
